import Mathlib

/-!
# Verification of the image preprocessing pipeline

A shallow embedding of the pipeline in `src/lib` (background removal,
garment classification and segmentation, the preprocessing orchestrator,
and background compositing), with theorems checking the specified
properties against it.

Modelling conventions:
* JavaScript numbers are modelled with exact arithmetic (`ℕ` for 8-bit
  channel values and pixel counts, `ℚ` for ratios, densities and
  confidence scores).
* `async` functions that can reject are modelled as total functions over
  an explicit environment whose fallible capabilities return
  `Except String _` (the `String` is the caught `error.message`); a
  function whose source catches every exception is therefore total by
  construction.
* Decoded images (`ImageData` / canvas read-back) are a width, a height
  and a pixel grid addressed by column and row.
-/

namespace InspiredOutfitting

/-- One RGBA pixel of a decoded raster. Channel values are entries of a
`Uint8ClampedArray`, on the 0-255 scale. -/
structure Pixel where
  r : ℕ
  g : ℕ
  b : ℕ
  a : ℕ
deriving DecidableEq

/-- A decoded raster image (an `HTMLImageElement` drawn onto a canvas and
read back as `ImageData`): dimensions plus a pixel grid addressed by
column `x` and row `y`. -/
structure Image where
  width : ℕ
  height : ℕ
  pix : ℕ → ℕ → Pixel

/-- `GarmentType` from src/lib/garmentSegmentation.ts line 9. -/
inductive GarmentType
  | top
  | bottom
  | fullBody
  | completeOutfit
deriving DecidableEq

/-- The aspect-ratio classification (`'likelyTop' | 'likelyBottom' |
'likelyFullBody'`). -/
inductive AspectClass
  | likelyTop
  | likelyBottom
  | likelyFullBody
deriving DecidableEq

/-- `detectGarmentTypeByAspectRatio` (src/lib/garmentSegmentation.ts lines
49-64). `width / height` is IEEE division in the source; it is modelled
with exact rationals, and the `height = 0` corner (where JavaScript
produces `Infinity`, or `NaN` when the width is also 0) is spelled out
explicitly so the embedding agrees with the source on every input. -/
def detectGarmentTypeByAspectRatio (width height : ℕ) : AspectClass :=
  if height = 0 then
    -- width / 0 is Infinity (> 1.2) for width > 0, NaN (all comparisons false) for width = 0
    (if width = 0 then .likelyFullBody else .likelyTop)
  else
    let aspectRatio : ℚ := (width : ℚ) / (height : ℚ)
    if 6/5 < aspectRatio then .likelyTop
    else if aspectRatio < 4/5 then .likelyBottom
    else .likelyFullBody

/-- Absolute difference of two channel values (`Math.abs(a - b)` on
nonnegative integers). -/
def adiff (a b : ℕ) : ℕ := max a b - min a b

/-- The squared gradient magnitude at interior position `(x, y)`
(src/lib/garmentSegmentation.ts lines 84-100). The source compares
`Math.sqrt(dxSum² + dySum²) > 30`; since both sides are nonnegative this
is equivalent to `dxSum² + dySum² > 900`, which keeps the definition in
integer arithmetic. -/
def gradientSq (img : Image) (x y : ℕ) : ℕ :=
  let p := img.pix x y
  let pRight := img.pix (x + 1) y
  let pBottom := img.pix x (y + 1)
  let dxSum := adiff p.r pRight.r + adiff p.g pRight.g + adiff p.b pRight.b
  let dySum := adiff p.r pBottom.r + adiff p.g pBottom.g + adiff p.b pBottom.b
  dxSum * dxSum + dySum * dySum

/-- The interior positions `(x, y)` visited by the scan loops of
`analyzeEdgeDensity`: `x ∈ [1, width-1)`, `y ∈ [1, height-1)`. -/
def interior (img : Image) : Finset (ℕ × ℕ) :=
  Finset.Ico 1 (img.width - 1) ×ˢ Finset.Ico 1 (img.height - 1)

/-- The edge-density pair returned by `analyzeEdgeDensity`. -/
structure EdgeDensity where
  topEdgeDensity : ℚ
  bottomEdgeDensity : ℚ
deriving DecidableEq

/-- `analyzeEdgeDensity` (src/lib/garmentSegmentation.ts lines 71-124):
count interior pixels whose gradient magnitude exceeds 30, separately for
the top half (`y < ⌊height / 2⌋`) and the bottom half, and normalise each
count by the number of interior pixels of that half. -/
def analyzeEdgeDensity (img : Image) : EdgeDensity :=
  let topHalfHeight := img.height / 2
  let topRegion := (interior img).filter (fun p => p.2 < topHalfHeight)
  let bottomRegion := (interior img).filter (fun p => ¬ p.2 < topHalfHeight)
  let topEdges := (topRegion.filter (fun p => 900 < gradientSq img p.1 p.2)).card
  let bottomEdges := (bottomRegion.filter (fun p => 900 < gradientSq img p.1 p.2)).card
  let topPixels := topRegion.card
  let bottomPixels := bottomRegion.card
  { topEdgeDensity := if 0 < topPixels then (topEdges : ℚ) / topPixels else 0
    bottomEdgeDensity := if 0 < bottomPixels then (bottomEdges : ℚ) / bottomPixels else 0 }

/-- The per-pixel rule of the client-side background-removal loop
(src/lib/backgroundRemoval.ts lines 151-161): brightness is
`(r + g + b) / 3`; a pixel brighter than 240 has its alpha set to 0 and
every other pixel is untouched. -/
def clientSidePixelRule (p : Pixel) : Pixel :=
  let brightness : ℚ := ((p.r : ℚ) + (p.g : ℚ) + (p.b : ℚ)) / 3
  if 240 < brightness then { p with a := 0 } else p

/-- The whole-image loop of `removeBackgroundClientSide`: the data array is
traversed pixel by pixel and the rule applied to each one independently. -/
def clientSideRemoval (img : Image) : Image :=
  { img with pix := fun x y => clientSidePixelRule (img.pix x y) }

/-- Scenario A input: a 100×100 opaque image, a solid red 60×60 center
(both coordinates in `[20, 80)`) on a border of pixels with
`r = g = b = 250`. -/
def scenarioAImage : Image :=
  { width := 100
    height := 100
    pix := fun x y =>
      if 20 ≤ x ∧ x < 80 ∧ 20 ≤ y ∧ y < 80 then ⟨255, 0, 0, 255⟩
      else ⟨250, 250, 250, 255⟩ }

/-- The "top" confidence combination of `detectSingleGarment`
(src/lib/garmentSegmentation.ts lines 167-177): the aspect-ratio match is
worth 0.3 and the edge match is `min((topEdgeDensity - bottomEdgeDensity)
* 2, 0.7)` when the difference is positive, else 0. -/
def topConfidence (aspectRatioType : AspectClass)
    (topEdgeDensity bottomEdgeDensity : ℚ) : ℚ :=
  (if aspectRatioType = .likelyTop then 3/10 else 0) +
    (if bottomEdgeDensity < topEdgeDensity then
      min ((topEdgeDensity - bottomEdgeDensity) * 2) (7/10)
    else 0)

/-- The symmetric "bottom" confidence combination
(src/lib/garmentSegmentation.ts lines 180-190). -/
def bottomConfidence (aspectRatioType : AspectClass)
    (topEdgeDensity bottomEdgeDensity : ℚ) : ℚ :=
  (if aspectRatioType = .likelyBottom then 3/10 else 0) +
    (if topEdgeDensity < bottomEdgeDensity then
      min ((bottomEdgeDensity - topEdgeDensity) * 2) (7/10)
    else 0)

/-- **C6.** The aspect-ratio classification: `width/height > 1.2` gives
`likelyTop`, `< 0.8` gives `likelyBottom`, anything else `likelyFullBody`;
and a 300×600 image is classified `likelyBottom`. -/
theorem c6_aspect_ratio_classification (width height : ℕ) (hh : 0 < height) :
    (detectGarmentTypeByAspectRatio width height =
      if (width : ℚ) / (height : ℚ) > 6/5 then .likelyTop
      else if (width : ℚ) / (height : ℚ) < 4/5 then .likelyBottom
      else .likelyFullBody)
    ∧ detectGarmentTypeByAspectRatio 300 600 = .likelyBottom := by
  constructor
  · unfold detectGarmentTypeByAspectRatio
    rw [if_neg hh.ne']
  · unfold detectGarmentTypeByAspectRatio
    norm_num

/-- Witness for C6: the theorem applied to the concrete 300×600 input. -/
theorem c6_aspect_ratio_classification_witness :
    detectGarmentTypeByAspectRatio 300 600 = .likelyBottom :=
  (c6_aspect_ratio_classification 300 600 (by norm_num)).2

/-- **C3.** The client-side fallback applies the deterministic per-pixel
rule: alpha 0 exactly when `(r + g + b) / 3 > 240`, everything else
untouched; consequently on the Scenario A image every border pixel ends
with alpha 0 and every center pixel keeps alpha 255. -/
theorem c3_client_side_removal_rule :
    (∀ (img : Image) (x y : ℕ),
      (clientSideRemoval img).pix x y =
        if 240 < (((img.pix x y).r : ℚ) + ((img.pix x y).g : ℚ) +
            ((img.pix x y).b : ℚ)) / 3 then
          { img.pix x y with a := 0 }
        else img.pix x y)
    ∧ (∀ x y : ℕ, x < 100 → y < 100 →
        ((clientSideRemoval scenarioAImage).pix x y).a =
          if 20 ≤ x ∧ x < 80 ∧ 20 ≤ y ∧ y < 80 then 255 else 0) := by
  constructor
  · intro img x y
    rfl
  · intro x y _ _
    by_cases h : 20 ≤ x ∧ x < 80 ∧ 20 ≤ y ∧ y < 80
    · simp only [clientSideRemoval, clientSidePixelRule, scenarioAImage, if_pos h]
      norm_num
    · simp only [clientSideRemoval, clientSidePixelRule, scenarioAImage, if_neg h]
      norm_num

/-- Witness for C3: one border pixel turns transparent and one center pixel
stays opaque on the Scenario A image. -/
theorem c3_client_side_removal_rule_witness :
    ((clientSideRemoval scenarioAImage).pix 0 0).a = 0 ∧
    ((clientSideRemoval scenarioAImage).pix 50 50).a = 255 := by
  constructor
  · have h := c3_client_side_removal_rule.2 0 0 (by norm_num) (by norm_num)
    simpa using h
  · have h := c3_client_side_removal_rule.2 50 50 (by norm_num) (by norm_num)
    simpa using h

/-- **C7.** Monotonicity of the "top" confidence: with the aspect-ratio
class fixed, a larger difference `topEdgeDensity - bottomEdgeDensity`
never yields a smaller confidence. -/
theorem c7_top_confidence_monotone (aspectRatioType : AspectClass)
    (t₁ b₁ t₂ b₂ : ℚ) (h : t₁ - b₁ ≤ t₂ - b₂) :
    topConfidence aspectRatioType t₁ b₁ ≤ topConfidence aspectRatioType t₂ b₂ := by
  unfold topConfidence
  refine add_le_add_left ?_ _
  by_cases h1 : b₁ < t₁
  · have h2 : b₂ < t₂ := by linarith [sub_pos.mpr h1]
    rw [if_pos h1, if_pos h2]
    exact min_le_min (by linarith) le_rfl
  · rw [if_neg h1]
    by_cases h2 : b₂ < t₂
    · rw [if_pos h2]
      have : (0 : ℚ) ≤ (t₂ - b₂) * 2 := by nlinarith [sub_pos.mpr h2]
      exact le_min this (by norm_num)
    · rw [if_neg h2]

/-- Witness for C7: the theorem applied at a concrete aspect class and two
concrete density pairs. -/
theorem c7_top_confidence_monotone_witness :
    topConfidence .likelyTop (1/10) (0 : ℚ) ≤ topConfidence .likelyTop (3/10) 0 :=
  c7_top_confidence_monotone .likelyTop (1/10) 0 (3/10) 0 (by norm_num)

/-- The detected type `'top' | 'bottom' | 'fullBody'` of a
`SingleGarmentDetection`. -/
inductive DetectedType
  | top
  | bottom
  | fullBody
deriving DecidableEq

/-- `SingleGarmentDetection` (src/lib/garmentSegmentation.ts lines 39-43). -/
structure SingleGarmentDetection where
  isSingleGarment : Bool
  confidence : ℚ
  detectedType : Option DetectedType
deriving DecidableEq

/-- The browser capabilities the classifier and segmenter run on: decoding
a data URL into pixels (`loadImage` + `imageToCanvas` + `getImageData`).
`.error` collects every throwing path of that prologue (image load
failure, a null 2d context), carrying the caught `error.message`. -/
structure CanvasEnv where
  decode : String → Except String Image

/-- `detectSingleGarment` (src/lib/garmentSegmentation.ts lines 130-208):
`fullBody` and `completeOutfit` short-circuit to confidence 1 before any
pixel analysis; for `top` and `bottom` the confidence combines the
aspect-ratio match and the edge-density match, the detected type is set
when the confidence exceeds 0.6, and any caught error degrades to
confidence 0. -/
def detectSingleGarment (env : CanvasEnv) (imageDataUrl : String)
    (userSelectedType : GarmentType) : SingleGarmentDetection :=
  if userSelectedType = .fullBody ∨ userSelectedType = .completeOutfit then
    { isSingleGarment := true, confidence := 1, detectedType := some .fullBody }
  else
    match env.decode imageDataUrl with
    | .error _ => { isSingleGarment := false, confidence := 0, detectedType := none }
    | .ok img =>
      let aspectRatioType := detectGarmentTypeByAspectRatio img.width img.height
      let d := analyzeEdgeDensity img
      let confidence : ℚ :=
        if userSelectedType = .top then
          topConfidence aspectRatioType d.topEdgeDensity d.bottomEdgeDensity
        else if userSelectedType = .bottom then
          bottomConfidence aspectRatioType d.topEdgeDensity d.bottomEdgeDensity
        else 0
      let detectedType : Option DetectedType :=
        if userSelectedType = .top then
          (if 6/10 < confidence then some .top else none)
        else if userSelectedType = .bottom then
          (if 6/10 < confidence then some .bottom else none)
        else none
      let isSingleGarment : Bool :=
        decide (6/10 < confidence) &&
          ((decide (userSelectedType = .top) && decide (detectedType = some .top)) ||
            (decide (userSelectedType = .bottom) && decide (detectedType = some .bottom)))
      { isSingleGarment := isSingleGarment
        confidence := confidence
        detectedType := detectedType }

/-- `SegmentationResult` (src/lib/garmentSegmentation.ts lines 32-37). The
optional debug block is not needed by any claim and is not modelled. -/
structure SegmentationResult where
  segmentedImageDataUrl : String
  success : Bool
  error : Option String
deriving DecidableEq

/-- `segmentGarment` (src/lib/garmentSegmentation.ts lines 215-389). After
the decode prologue, `top` and `bottom` return the input data URL
unchanged (lines 240-262) and so do `fullBody` and `completeOutfit`
(lines 265-287); the region-cropping fallback (lines 289-381) is
unreachable because every `GarmentType` constructor returns earlier. Any
caught error yields `success = false` with the message (lines 382-388,
defaulting to `'Segmentation failed'` when the message is empty). -/
def segmentGarment (env : CanvasEnv) (imageDataUrl : String)
    (garmentType : GarmentType) : SegmentationResult :=
  match env.decode imageDataUrl with
  | .error e =>
      { segmentedImageDataUrl := ""
        success := false
        error := some (if e = "" then "Segmentation failed" else e) }
  | .ok _ =>
      if garmentType = .top ∨ garmentType = .bottom then
        { segmentedImageDataUrl := imageDataUrl, success := true, error := none }
      else
        -- fullBody | completeOutfit: the full image passes through unmodified
        { segmentedImageDataUrl := imageDataUrl, success := true, error := none }

/-- `getSegmentedGarment` (src/lib/garmentSegmentation.ts lines 485-496):
both the advanced and the plain branch call `segmentGarment`. -/
def getSegmentedGarment (env : CanvasEnv) (imageDataUrl : String)
    (garmentType : GarmentType) (_useAdvanced : Bool) (_includeDebug : Bool) :
    SegmentationResult :=
  segmentGarment env imageDataUrl garmentType

/-- A 3×3 test image for witnesses: a dark cross on a light field. -/
def witnessImage : Image :=
  { width := 3
    height := 3
    pix := fun x y => if x = 1 ∨ y = 1 then ⟨10, 10, 10, 255⟩ else ⟨250, 250, 250, 255⟩ }

/-- A witness environment whose decode always yields `witnessImage`. -/
def witnessCanvasEnv : CanvasEnv :=
  { decode := fun _ => .ok witnessImage }

/-- **C5.** The classifier: `fullBody` and `completeOutfit` short-circuit to
confidence 1 and `isSingleGarment = true` with no pixel analysis (the
result does not depend on the environment at all); for a declared `top`
the confidence is the aspect-ratio match (0.3 when `likelyTop`) plus the
positive-part edge match capped at 0.7, symmetrically for `bottom`; and
`isSingleGarment` holds exactly when the confidence exceeds 0.6 and the
detected type matches the declared one. -/
theorem c5_classifier_combination :
    (∀ (env : CanvasEnv) (url : String),
      detectSingleGarment env url .fullBody =
        { isSingleGarment := true, confidence := 1, detectedType := some .fullBody } ∧
      detectSingleGarment env url .completeOutfit =
        { isSingleGarment := true, confidence := 1, detectedType := some .fullBody })
    ∧ (∀ (env : CanvasEnv) (url : String) (img : Image),
        env.decode url = .ok img →
        ((detectSingleGarment env url .top).confidence =
            (if detectGarmentTypeByAspectRatio img.width img.height = .likelyTop
              then 3/10 else 0) +
            (if (analyzeEdgeDensity img).bottomEdgeDensity <
                (analyzeEdgeDensity img).topEdgeDensity then
              min (((analyzeEdgeDensity img).topEdgeDensity -
                (analyzeEdgeDensity img).bottomEdgeDensity) * 2) (7/10)
            else 0) ∧
          (detectSingleGarment env url .bottom).confidence =
            (if detectGarmentTypeByAspectRatio img.width img.height = .likelyBottom
              then 3/10 else 0) +
            (if (analyzeEdgeDensity img).topEdgeDensity <
                (analyzeEdgeDensity img).bottomEdgeDensity then
              min (((analyzeEdgeDensity img).bottomEdgeDensity -
                (analyzeEdgeDensity img).topEdgeDensity) * 2) (7/10)
            else 0) ∧
          ((detectSingleGarment env url .top).isSingleGarment = true ↔
            6/10 < (detectSingleGarment env url .top).confidence ∧
              (detectSingleGarment env url .top).detectedType = some .top) ∧
          ((detectSingleGarment env url .bottom).isSingleGarment = true ↔
            6/10 < (detectSingleGarment env url .bottom).confidence ∧
              (detectSingleGarment env url .bottom).detectedType = some .bottom))) := by
  constructor
  · intro env url
    constructor <;> rfl
  · intro env url img hdec
    refine ⟨?_, ?_, ?_, ?_⟩
    · simp [detectSingleGarment, hdec, topConfidence]
    · simp [detectSingleGarment, hdec, bottomConfidence]
    · by_cases hc : (6 : ℚ)/10 <
        topConfidence (detectGarmentTypeByAspectRatio img.width img.height)
          (analyzeEdgeDensity img).topEdgeDensity (analyzeEdgeDensity img).bottomEdgeDensity
      · simp [detectSingleGarment, hdec, hc]
      · simp [detectSingleGarment, hdec, hc]
    · by_cases hc : (6 : ℚ)/10 <
        bottomConfidence (detectGarmentTypeByAspectRatio img.width img.height)
          (analyzeEdgeDensity img).topEdgeDensity (analyzeEdgeDensity img).bottomEdgeDensity
      · simp [detectSingleGarment, hdec, hc]
      · simp [detectSingleGarment, hdec, hc]

/-- Witness for C5: the classifier evaluated on a concrete environment and
image. -/
theorem c5_classifier_combination_witness :
    (detectSingleGarment witnessCanvasEnv "garment.png" .fullBody).confidence = 1 ∧
    (detectSingleGarment witnessCanvasEnv "garment.png" .top).confidence =
      (if detectGarmentTypeByAspectRatio witnessImage.width witnessImage.height = .likelyTop
        then 3/10 else 0) +
      (if (analyzeEdgeDensity witnessImage).bottomEdgeDensity <
          (analyzeEdgeDensity witnessImage).topEdgeDensity then
        min (((analyzeEdgeDensity witnessImage).topEdgeDensity -
          (analyzeEdgeDensity witnessImage).bottomEdgeDensity) * 2) (7/10)
      else 0) := by
  refine ⟨?_, ?_⟩
  · rw [(c5_classifier_combination.1 witnessCanvasEnv "garment.png").1]
  · exact ((c5_classifier_combination.2 witnessCanvasEnv "garment.png" witnessImage rfl).1)

/-- **C8.** Full-image segmentation is the identity on the payload: for any
input that decodes, segmenting with declared type `fullBody` or
`completeOutfit` succeeds and returns the input data URL itself (hence a
pixel-identical image). -/
theorem c8_full_image_segmentation (env : CanvasEnv) (url : String) (img : Image)
    (hdec : env.decode url = .ok img) (t : GarmentType)
    (ht : t = .fullBody ∨ t = .completeOutfit) :
    (segmentGarment env url t).success = true ∧
    (segmentGarment env url t).segmentedImageDataUrl = url := by
  rcases ht with h | h <;> subst h <;> simp [segmentGarment, hdec]

/-- Witness for C8: full-image segmentation on a concrete environment. -/
theorem c8_full_image_segmentation_witness :
    (segmentGarment witnessCanvasEnv "garment.png" .fullBody).success = true ∧
    (segmentGarment witnessCanvasEnv "garment.png" .fullBody).segmentedImageDataUrl =
      "garment.png" :=
  c8_full_image_segmentation witnessCanvasEnv "garment.png" witnessImage rfl
    .fullBody (Or.inl rfl)

/-- An uploaded or generated file: a name plus abstract byte content. -/
structure File where
  name : String
  content : String
deriving DecidableEq

/-- `'replicate' | 'client-side'`, the `method` field of the removal debug
block. -/
inductive RemovalMethod
  | replicate
  | clientSide
deriving DecidableEq

/-- `BackgroundRemovalDebugInfo` (src/lib/backgroundRemoval.ts lines 8-16),
restricted to the fields the claims are about; the timing and dimension
fields are not modelled. `warnings` is optional in the source. -/
structure BackgroundRemovalDebugInfo where
  method : RemovalMethod
  warnings : Option (List String)
deriving DecidableEq

/-- `BackgroundRemovalResult` (src/lib/backgroundRemoval.ts lines 18-23). -/
structure BackgroundRemovalResult where
  imageDataUrl : String
  success : Bool
  error : Option String
  debug : Option BackgroundRemovalDebugInfo
deriving DecidableEq

/-- The outcome of the one remote round-trip inside
`removeBackgroundWithReplicate`: either the processed image's URL, or the
message of the error that was thrown/caught (network failure, non-2xx
response, load failure of the returned blob). -/
inductive RemoteOutcome
  | ok (imageDataUrl : String)
  | err (message : String)
deriving DecidableEq

/-- The capabilities the background-removal coordinator runs on. `remote`
is the Replicate round-trip, `decodeFile` the client-side decode prologue
(object URL + `loadImage` + canvas, `.error` carrying any caught
message), and `encodePng` the final `canvas.toDataURL('image/png')`. -/
structure RemovalEnv where
  remote : File → RemoteOutcome
  decodeFile : File → Except String Image
  encodePng : Image → String

/-- `removeBackgroundWithReplicate` (src/lib/backgroundRemoval.ts lines
29-117): every error is caught and returned as a failed result whose
debug block carries the message as its only warning
(`error.message || 'Replicate API failed'`). -/
def removeBackgroundWithReplicate (env : RemovalEnv) (imageFile : File)
    (includeDebug : Bool) : BackgroundRemovalResult :=
  match env.remote imageFile with
  | .ok url =>
      { imageDataUrl := url
        success := true
        error := none
        debug := if includeDebug then some { method := .replicate, warnings := none }
          else none }
  | .err msg =>
      let m := if msg = "" then "Replicate API failed" else msg
      { imageDataUrl := ""
        success := false
        error := some m
        debug := if includeDebug then some { method := .replicate, warnings := some [m] }
          else none }

/-- `removeBackgroundClientSide` (src/lib/backgroundRemoval.ts lines
123-199): decode, apply the brightness-threshold loop, re-encode as PNG;
every error is caught and returned as a failed result
(`error.message || 'Client-side removal failed'`). The success-path debug
block carries the fixed quality warning of line 181. -/
def removeBackgroundClientSide (env : RemovalEnv) (imageFile : File)
    (includeDebug : Bool) : BackgroundRemovalResult :=
  match env.decodeFile imageFile with
  | .ok img =>
      { imageDataUrl := env.encodePng (clientSideRemoval img)
        success := true
        error := none
        debug := if includeDebug then
            some { method := .clientSide
                   warnings := some ["Using basic client-side removal. For better results, configure REPLICATE_API_TOKEN."] }
          else none }
  | .error e =>
      let m := if e = "" then "Client-side removal failed" else e
      { imageDataUrl := ""
        success := false
        error := some m
        debug := if includeDebug then some { method := .clientSide, warnings := some [m] }
          else none }

/-- `removeBackground` (src/lib/backgroundRemoval.ts lines 205-231): try
the Replicate route; on failure fall back to the client side, and when
debug blocks from both attempts exist, merge the warning lists around the
`Replicate failed:` message. -/
def removeBackground (env : RemovalEnv) (imageFile : File) (includeDebug : Bool) :
    BackgroundRemovalResult :=
  let replicateResult := removeBackgroundWithReplicate env imageFile includeDebug
  if replicateResult.success then replicateResult
  else
    let fallbackResult := removeBackgroundClientSide env imageFile includeDebug
    match includeDebug, replicateResult.debug, fallbackResult.debug with
    | true, some rd, some fd =>
        { fallbackResult with
          debug := some { fd with
            warnings := some (rd.warnings.getD [] ++
              ["Replicate failed: " ++ replicateResult.error.getD "undefined"] ++
              fd.warnings.getD []) } }
    | _, _, _ => fallbackResult

/-- **C4.** The coordinator fails exactly when both the remote attempt and
the local fallback fail (it is a total function, so no error escapes its
boundary), and with debug enabled a remote failure followed by a local
success still surfaces the remote failure message among the returned
warnings. -/
theorem c4_removal_coordinator (env : RemovalEnv) (imageFile : File)
    (includeDebug : Bool) :
    ((removeBackground env imageFile includeDebug).success = false ↔
      (removeBackgroundWithReplicate env imageFile includeDebug).success = false ∧
      (removeBackgroundClientSide env imageFile includeDebug).success = false)
    ∧ (includeDebug = true →
      (removeBackgroundWithReplicate env imageFile includeDebug).success = false →
      (removeBackgroundClientSide env imageFile includeDebug).success = true →
      ∃ w, (removeBackground env imageFile includeDebug).debug = some w ∧
        ("Replicate failed: " ++
            (removeBackgroundWithReplicate env imageFile includeDebug).error.getD "undefined")
          ∈ w.warnings.getD []) := by
  cases includeDebug <;> cases hr : env.remote imageFile <;>
    cases hd : env.decodeFile imageFile <;>
      constructor <;>
        simp [removeBackground, removeBackgroundWithReplicate,
          removeBackgroundClientSide, hr, hd]

/-- A witness removal environment: the remote attempt fails with a fixed
message, the local decode succeeds on the 3×3 test image. -/
def witnessRemovalEnv : RemovalEnv :=
  { remote := fun _ => .err "API error: 500"
    decodeFile := fun _ => .ok witnessImage
    encodePng := fun _ => "data:image/png;base64,processed" }

/-- Witness for C4: on the concrete environment the remote failure message
is preserved in the warnings even though the local fallback succeeded. -/
theorem c4_removal_coordinator_witness :
    ∃ w, (removeBackground witnessRemovalEnv ⟨"person.png", "bytes"⟩ true).debug = some w ∧
      ("Replicate failed: " ++
          (removeBackgroundWithReplicate witnessRemovalEnv ⟨"person.png", "bytes"⟩ true).error.getD
            "undefined")
        ∈ w.warnings.getD [] :=
  (c4_removal_coordinator witnessRemovalEnv ⟨"person.png", "bytes"⟩ true).2 rfl rfl rfl

/-- The `steps` record of a `PreprocessingResult`
(src/lib/garmentSegmentation.ts lines 538-542 of the pipeline module). -/
structure PreprocessingSteps where
  personBackgroundRemoved : Bool
  garmentBackgroundRemoved : Bool
  garmentSegmented : Bool
deriving DecidableEq

/-- `PreprocessingResult` (pipeline module lines 531-544). The optional
debug block is observability-only and not needed by any claim, so it is
not modelled. -/
structure PreprocessingResult where
  processedPersonImage : File
  processedGarmentImage : File
  personImageDataUrl : String
  garmentImageDataUrl : String
  success : Bool
  error : Option String
  steps : PreprocessingSteps
deriving DecidableEq

/-- `PreprocessingOptions` (pipeline module lines 546-553): every field is
optional; `preprocessImages` applies the defaults
`removePersonBackground = removeGarmentBackground = segmentGarment = true`,
`garmentType = 'completeOutfit'`, the rest `false`. -/
structure PreprocessingOptions where
  removePersonBackground : Option Bool := none
  removeGarmentBackground : Option Bool := none
  segmentGarment : Option Bool := none
  garmentType : Option GarmentType := none
  useAdvancedSegmentation : Option Bool := none
  includeDebug : Option Bool := none
deriving DecidableEq

/-- The capabilities the orchestrator runs on: the codec conversions
(`fileToDataUrl`, `dataUrlToFile`, both of which can reject) and the
environments of the two embedded sub-pipelines. -/
structure PipelineEnv where
  fileToDataUrlFn : File → Except String String
  dataUrlToFileFn : String → String → Except String File
  removalEnv : RemovalEnv
  canvasEnv : CanvasEnv

/-- Step 1 of `preprocessImages` (pipeline module lines 596-616): when
person background removal is requested, run `removeBackground`; accept
its output only when `success` holds and `imageDataUrl` is truthy
(non-empty), otherwise keep the original data URL with the step flag
still false. Returns (current person URL, step flag). -/
def runPersonBgStep (env : PipelineEnv) (removePersonBackground includeDebug : Bool)
    (personImageFile : File) (personImageDataUrl : String) : String × Bool :=
  if removePersonBackground then
    let personBgResult := removeBackground env.removalEnv personImageFile includeDebug
    if personBgResult.success = true ∧ personBgResult.imageDataUrl ≠ "" then
      (personBgResult.imageDataUrl, true)
    else (personImageDataUrl, false)
  else (personImageDataUrl, false)

/-- Step 2 of `preprocessImages` (pipeline module lines 619-640): convert
the current garment data URL to a `File` named `garment.png` (this
conversion can reject, which aborts the whole `try` block) and run
`removeBackground` on it with the same acceptance rule as step 1. -/
def runGarmentBgStep (env : PipelineEnv) (removeGarmentBackground includeDebug : Bool)
    (garmentImageDataUrl : String) : Except String (String × Bool) :=
  if removeGarmentBackground then
    match env.dataUrlToFileFn garmentImageDataUrl "garment.png" with
    | .error e => .error e
    | .ok garmentFile =>
      let garmentBgResult := removeBackground env.removalEnv garmentFile includeDebug
      if garmentBgResult.success = true ∧ garmentBgResult.imageDataUrl ≠ "" then
        .ok (garmentBgResult.imageDataUrl, true)
      else .ok (garmentImageDataUrl, false)
  else .ok (garmentImageDataUrl, false)

/-- Step 3 of `preprocessImages` (pipeline module lines 643-662): when
segmentation is requested (the declared garment type, having a default,
is always truthy), run `getSegmentedGarment`; on failure keep the current
garment URL with the step flag false. -/
def runSegmentationStep (env : PipelineEnv)
    (segmentRequested useAdvancedSegmentation includeDebug : Bool)
    (garmentType : GarmentType) (garmentImageDataUrl : String) : String × Bool :=
  if segmentRequested then
    let segmentedResult := getSegmentedGarment env.canvasEnv garmentImageDataUrl
      garmentType useAdvancedSegmentation includeDebug
    if segmentedResult.success then (segmentedResult.segmentedImageDataUrl, true)
    else (garmentImageDataUrl, false)
  else (garmentImageDataUrl, false)

/-- The `catch` block of `preprocessImages` (pipeline module lines
723-736): resolve (never reject) with `success = false`, the caught
message (`error.message || 'Preprocessing failed'`), the original,
unprocessed input `File` objects, their data URLs when they convert
(`''` otherwise), and the step flags as mutated so far. -/
def preprocessFailure (env : PipelineEnv) (personImageFile garmentImageFile : File)
    (msg : String) (steps : PreprocessingSteps) : PreprocessingResult :=
  { processedPersonImage := personImageFile
    processedGarmentImage := garmentImageFile
    personImageDataUrl := (env.fileToDataUrlFn personImageFile).toOption.getD ""
    garmentImageDataUrl := (env.fileToDataUrlFn garmentImageFile).toOption.getD ""
    success := false
    error := some (if msg = "" then "Preprocessing failed" else msg)
    steps := steps }

/-- `preprocessImages` (pipeline module lines 559-737): decode both files,
run the three steps, then the verification gate (lines 670-677: requested
background removal whose flag is false throws), the conversions of the
processed data URLs back to `File`s (lines 680-681), and the final
unconditional verification (lines 692-703: a false background-removal
flag throws even when the step was not requested). Every throw lands in
the `catch` block modelled by `preprocessFailure`. -/
def preprocessImages (env : PipelineEnv) (personImageFile garmentImageFile : File)
    (options : PreprocessingOptions) : PreprocessingResult :=
  let rp := options.removePersonBackground.getD true
  let rg := options.removeGarmentBackground.getD true
  let sg := options.segmentGarment.getD true
  let gt := options.garmentType.getD .completeOutfit
  let adv := options.useAdvancedSegmentation.getD false
  let dbg := options.includeDebug.getD false
  match env.fileToDataUrlFn personImageFile with
  | .error e => preprocessFailure env personImageFile garmentImageFile e ⟨false, false, false⟩
  | .ok personUrl0 =>
    match env.fileToDataUrlFn garmentImageFile with
    | .error e => preprocessFailure env personImageFile garmentImageFile e ⟨false, false, false⟩
    | .ok garmentUrl0 =>
      let p := runPersonBgStep env rp dbg personImageFile personUrl0
      match runGarmentBgStep env rg dbg garmentUrl0 with
      | .error e =>
          preprocessFailure env personImageFile garmentImageFile e ⟨p.2, false, false⟩
      | .ok g =>
        let s := runSegmentationStep env sg adv dbg gt g.1
        let steps : PreprocessingSteps := ⟨p.2, g.2, s.2⟩
        if rp = true ∧ p.2 = false then
          preprocessFailure env personImageFile garmentImageFile
            "Person background removal failed. Cannot proceed with original image." steps
        else if rg = true ∧ g.2 = false then
          preprocessFailure env personImageFile garmentImageFile
            "Garment background removal failed. Cannot proceed with original image." steps
        else
          match env.dataUrlToFileFn p.1 "processed-person-bg-removed.png" with
          | .error e => preprocessFailure env personImageFile garmentImageFile e steps
          | .ok processedPersonImage =>
            match env.dataUrlToFileFn s.1 "processed-garment-bg-removed.png" with
            | .error e => preprocessFailure env personImageFile garmentImageFile e steps
            | .ok processedGarmentImage =>
              if p.2 = false then
                preprocessFailure env personImageFile garmentImageFile
                  "CRITICAL: Person image background was NOT removed - cannot use original image!"
                  steps
              else if g.2 = false then
                preprocessFailure env personImageFile garmentImageFile
                  "CRITICAL: Garment image background was NOT removed - cannot use original image!"
                  steps
              else
                { processedPersonImage := processedPersonImage
                  processedGarmentImage := processedGarmentImage
                  personImageDataUrl := p.1
                  garmentImageDataUrl := s.1
                  success := true
                  error := none
                  steps := steps }

/-- A person-step whose flag came back true accepted the coordinator's
output URL. -/
lemma runPersonBgStep_flag_true (env : PipelineEnv) (rp dbg : Bool) (pF : File)
    (url : String) (h : (runPersonBgStep env rp dbg pF url).2 = true) :
    (runPersonBgStep env rp dbg pF url).1 =
      (removeBackground env.removalEnv pF dbg).imageDataUrl := by
  unfold runPersonBgStep at h ⊢
  repeat' split at h <;> simp_all

/-- Shape of a successful `preprocessImages` run: both background-removal
flags are true (forced by the final verification of lines 692-703),
`error` is absent, and the returned person URL is whatever the person
step produced from the decoded input. -/
lemma preprocess_success_shape (env : PipelineEnv) (pF gF : File)
    (options : PreprocessingOptions) :
    (preprocessImages env pF gF options).success = true →
    (preprocessImages env pF gF options).steps.personBackgroundRemoved = true ∧
    (preprocessImages env pF gF options).steps.garmentBackgroundRemoved = true ∧
    (preprocessImages env pF gF options).error = none ∧
    ∃ personUrl0, env.fileToDataUrlFn pF = .ok personUrl0 ∧
      (preprocessImages env pF gF options).personImageDataUrl =
        (runPersonBgStep env (options.removePersonBackground.getD true)
          (options.includeDebug.getD false) pF personUrl0).1 ∧
      (runPersonBgStep env (options.removePersonBackground.getD true)
        (options.includeDebug.getD false) pF personUrl0).2 = true := by
  simp only [preprocessImages]
  repeat' split
  all_goals intro h
  all_goals simp_all [preprocessFailure]

/-- Shape of a failed `preprocessImages` run: the `catch` block resolves
with the two original input files and a present error message. -/
lemma preprocess_failure_shape (env : PipelineEnv) (pF gF : File)
    (options : PreprocessingOptions) :
    (preprocessImages env pF gF options).success = false →
    (preprocessImages env pF gF options).processedPersonImage = pF ∧
    (preprocessImages env pF gF options).processedGarmentImage = gF ∧
    (preprocessImages env pF gF options).error ≠ none := by
  simp only [preprocessImages]
  repeat' split
  all_goals intro h
  all_goals simp_all [preprocessFailure]

/-- **C1.** The verification gate for background removal: whenever removal
is requested for the person or the garment image, a bundle with
`success = true` has the corresponding step flag true; a requested
removal whose flag is false makes the call return `success = false` with
an error; and on success the bundle's person URL is the coordinator's
processed output, never the unprocessed original. -/
theorem c1_background_removal_gate (env : PipelineEnv) (pF gF : File)
    (options : PreprocessingOptions) :
    ((preprocessImages env pF gF options).success = true →
      (options.removePersonBackground.getD true = true →
        (preprocessImages env pF gF options).steps.personBackgroundRemoved = true) ∧
      (options.removeGarmentBackground.getD true = true →
        (preprocessImages env pF gF options).steps.garmentBackgroundRemoved = true))
    ∧ (options.removePersonBackground.getD true = true →
      (preprocessImages env pF gF options).steps.personBackgroundRemoved = false →
      (preprocessImages env pF gF options).success = false ∧
        (preprocessImages env pF gF options).error ≠ none)
    ∧ (options.removeGarmentBackground.getD true = true →
      (preprocessImages env pF gF options).steps.garmentBackgroundRemoved = false →
      (preprocessImages env pF gF options).success = false ∧
        (preprocessImages env pF gF options).error ≠ none)
    ∧ ((preprocessImages env pF gF options).success = true →
      options.removePersonBackground.getD true = true →
      (preprocessImages env pF gF options).personImageDataUrl =
        (removeBackground env.removalEnv pF (options.includeDebug.getD false)).imageDataUrl) := by
  refine ⟨?_, ?_, ?_, ?_⟩
  · intro h
    exact ⟨fun _ => (preprocess_success_shape env pF gF options h).1,
      fun _ => (preprocess_success_shape env pF gF options h).2.1⟩
  · intro _ hflag
    cases hsucc : (preprocessImages env pF gF options).success with
    | true =>
        exact absurd ((preprocess_success_shape env pF gF options hsucc).1)
          (by simp [hflag])
    | false =>
        exact ⟨rfl, (preprocess_failure_shape env pF gF options hsucc).2.2⟩
  · intro _ hflag
    cases hsucc : (preprocessImages env pF gF options).success with
    | true =>
        exact absurd ((preprocess_success_shape env pF gF options hsucc).2.1)
          (by simp [hflag])
    | false =>
        exact ⟨rfl, (preprocess_failure_shape env pF gF options hsucc).2.2⟩
  · intro hsucc _
    obtain ⟨u0, _, hurl, hflag⟩ := (preprocess_success_shape env pF gF options hsucc).2.2.2
    rw [hurl, runPersonBgStep_flag_true env _ _ pF u0 hflag]

/-- A pipeline environment in which both removal strategies fail: the
remote attempt errors out and the client-side decode also fails. -/
def failingPipelineEnv : PipelineEnv :=
  { fileToDataUrlFn := fun f => .ok ("data:" ++ f.name)
    dataUrlToFileFn := fun _ n => .ok ⟨n, "converted"⟩
    removalEnv :=
      { remote := fun _ => .err "API error: 500"
        decodeFile := fun _ => .error "Could not get canvas context"
        encodePng := fun _ => "data:image/png;base64,local" }
    canvasEnv := witnessCanvasEnv }

/-- Witness for C1: with both removal strategies failing and removal
requested by default, the call returns failure with an error. -/
theorem c1_background_removal_gate_witness :
    (preprocessImages failingPipelineEnv ⟨"person.jpg", "p"⟩ ⟨"garment.jpg", "g"⟩
      {}).success = false ∧
    (preprocessImages failingPipelineEnv ⟨"person.jpg", "p"⟩ ⟨"garment.jpg", "g"⟩
      {}).error ≠ none :=
  (c1_background_removal_gate failingPipelineEnv ⟨"person.jpg", "p"⟩
    ⟨"garment.jpg", "g"⟩ {}).2.1 rfl rfl

/-- A pipeline environment in which background removal succeeds remotely
but garment segmentation fails (its decode throws). -/
def segmentationFailingEnv : PipelineEnv :=
  { fileToDataUrlFn := fun f => .ok ("data:" ++ f.name)
    dataUrlToFileFn := fun _ n => .ok ⟨n, "converted"⟩
    removalEnv :=
      { remote := fun _ => .ok "data:image/png;base64,removed"
        decodeFile := fun _ => .error "unused"
        encodePng := fun _ => "data:image/png;base64,local" }
    canvasEnv := { decode := fun _ => .error "Could not get canvas context" } }

/-- Counterexample to **C2** as stated: segmentation is requested (the
default), it fails, yet the bundle still reports `success = true` with
`steps.garmentSegmented = false` — the success flag does not cover the
segmentation step. -/
theorem c2_counterexample_segmentation_not_gated :
    ({} : PreprocessingOptions).segmentGarment.getD true = true ∧
    (preprocessImages segmentationFailingEnv ⟨"person.jpg", "p"⟩ ⟨"garment.jpg", "g"⟩
      {}).success = true ∧
    (preprocessImages segmentationFailingEnv ⟨"person.jpg", "p"⟩ ⟨"garment.jpg", "g"⟩
      {}).steps.garmentSegmented = false := by
  refine ⟨rfl, ?_, ?_⟩ <;> rfl

/-- **C2 (amended).** `success = true` guarantees the step flag of every
*background-removal* step the caller requested; the segmentation flag is
not covered by the guarantee: a failed segmentation leaves
`steps.garmentSegmented = false` while the bundle may still report
`success = true`. -/
theorem c2_amended_success_covers_removal_steps (env : PipelineEnv) (pF gF : File)
    (options : PreprocessingOptions) :
    (preprocessImages env pF gF options).success = true →
    (options.removePersonBackground.getD true = true →
      (preprocessImages env pF gF options).steps.personBackgroundRemoved = true) ∧
    (options.removeGarmentBackground.getD true = true →
      (preprocessImages env pF gF options).steps.garmentBackgroundRemoved = true) := by
  intro h
  exact ⟨fun _ => (preprocess_success_shape env pF gF options h).1,
    fun _ => (preprocess_success_shape env pF gF options h).2.1⟩

/-- An environment in which every stage succeeds. -/
def succeedingPipelineEnv : PipelineEnv :=
  { fileToDataUrlFn := fun f => .ok ("data:" ++ f.name)
    dataUrlToFileFn := fun _ n => .ok ⟨n, "converted"⟩
    removalEnv :=
      { remote := fun _ => .ok "data:image/png;base64,removed"
        decodeFile := fun _ => .error "unused"
        encodePng := fun _ => "data:image/png;base64,local" }
    canvasEnv := witnessCanvasEnv }

/-- Witness for the amended C2: on a fully succeeding run both requested
background-removal flags are true. -/
theorem c2_amended_success_covers_removal_steps_witness :
    (preprocessImages succeedingPipelineEnv ⟨"person.jpg", "p"⟩ ⟨"garment.jpg", "g"⟩
      {}).steps.personBackgroundRemoved = true ∧
    (preprocessImages succeedingPipelineEnv ⟨"person.jpg", "p"⟩ ⟨"garment.jpg", "g"⟩
      {}).steps.garmentBackgroundRemoved = true := by
  have h := c2_amended_success_covers_removal_steps succeedingPipelineEnv
    ⟨"person.jpg", "p"⟩ ⟨"garment.jpg", "g"⟩ {} rfl
  exact ⟨h.1 rfl, h.2 rfl⟩

/-- **C10.** `preprocessImages` is total (it never rejects: the embedding is
a plain function, mirroring the source's all-catching `catch`), and when it
resolves with `success = false` the bundle's processed-image fields are
the original, unprocessed input `File` objects, with an error message
present. -/
theorem c10_failure_returns_original_files (env : PipelineEnv) (pF gF : File)
    (options : PreprocessingOptions) :
    (preprocessImages env pF gF options).success = false →
    (preprocessImages env pF gF options).processedPersonImage = pF ∧
    (preprocessImages env pF gF options).processedGarmentImage = gF ∧
    (preprocessImages env pF gF options).error ≠ none :=
  preprocess_failure_shape env pF gF options

/-- Witness for C10: the failing run hands back exactly the two input
files. -/
theorem c10_failure_returns_original_files_witness :
    (preprocessImages failingPipelineEnv ⟨"person.jpg", "p"⟩ ⟨"garment.jpg", "g"⟩
      {}).processedPersonImage = ⟨"person.jpg", "p"⟩ ∧
    (preprocessImages failingPipelineEnv ⟨"person.jpg", "p"⟩ ⟨"garment.jpg", "g"⟩
      {}).processedGarmentImage = ⟨"garment.jpg", "g"⟩ ∧
    (preprocessImages failingPipelineEnv ⟨"person.jpg", "p"⟩ ⟨"garment.jpg", "g"⟩
      {}).error ≠ none :=
  c10_failure_returns_original_files failingPipelineEnv ⟨"person.jpg", "p"⟩
    ⟨"garment.jpg", "g"⟩ {} rfl

/-- `BackgroundType` (src/lib/backgroundCompositing.ts line 9):
`'white' | 'studio' | 'fitting-room'`; `white` is the flat-fill backdrop. -/
inductive BackgroundType
  | white
  | studio
  | fittingRoom
deriving DecidableEq

/-- What `compositeImageWithBackground` draws first onto the composite
canvas: the flat white fill, or the backdrop raster at the given
destination rectangle. -/
inductive BackdropDraw
  | whiteFill
  | imageDraw (backdrop : Image) (x y w h : ℚ)

/-- The composite canvas the compositor builds: its dimensions, the
backdrop draw, and the destination rectangle of the foreground (drawn
second, centered). Dimensions are kept as exact rationals; the IDL
truncation of fractional `canvas.width` assignments is not modelled. -/
structure CompositedCanvas where
  width : ℚ
  height : ℚ
  backdrop : BackdropDraw
  foregroundX : ℚ
  foregroundY : ℚ
  foregroundW : ℚ
  foregroundH : ℚ

/-- `BackgroundCompositingResult` (src/lib/backgroundCompositing.ts lines
11-16), with the drawn canvas in place of its PNG encoding. -/
structure BackgroundCompositingResult where
  canvas : Option CompositedCanvas
  success : Bool
  error : Option String

/-- The capabilities the compositor runs on: decoding the foreground data
URL, loading a named backdrop (`loadBackgroundImage`, returning `none`
for `white` or when loading fails, lines 21-35), and the secondary
background-removal pass on an opaque foreground (lines 92-113; `some`
carries the decoded processed image, `none` means any failure on that
path, after which the original image is kept). -/
structure CompositingEnv where
  decode : String → Except String Image
  loadBackgroundImage : BackgroundType → Option Image
  removeBackgroundAttempt : String → Option Image

/-- The transparency scan of lines 79-85: true when some pixel has alpha
below 255. -/
def hasTransparency (img : Image) : Bool :=
  decide (∃ y < img.height, ∃ x < img.width, (img.pix x y).a < 255)

/-- `compositeImageWithBackground` (src/lib/backgroundCompositing.ts lines
58-201): decode the foreground; if fully opaque, try the secondary
removal pass; for a named backdrop that loads, set the canvas to the
backdrop's aspect ratio — keeping the foreground dimension of the
matching axis (lines 128-142) — draw the backdrop scaled to cover and
centered (lines 159-170), and draw the foreground centered (lines
177-182); for `white` (or a failed backdrop load) fill the
foreground-sized canvas white. All errors are caught into a failed
result (lines 193-200). -/
def compositeImageWithBackground (env : CompositingEnv) (imageDataUrl : String)
    (backgroundType : BackgroundType) : BackgroundCompositingResult :=
  match env.decode imageDataUrl with
  | .error e =>
      { canvas := none
        success := false
        error := some (if e = "" then "Background compositing failed" else e) }
  | .ok fg0 =>
      let foregroundImg :=
        if hasTransparency fg0 then fg0
        else
          match env.removeBackgroundAttempt imageDataUrl with
          | some removed => removed
          | none => fg0
      let foregroundWidth : ℚ := foregroundImg.width
      let foregroundHeight : ℚ := foregroundImg.height
      let backgroundImg : Option Image :=
        if backgroundType = .white then none
        else env.loadBackgroundImage backgroundType
      let dims : ℚ × ℚ :=
        match backgroundImg with
        | none => (foregroundWidth, foregroundHeight)
        | some bg =>
            let bgAspect : ℚ := (bg.width : ℚ) / (bg.height : ℚ)
            let fgAspect : ℚ := foregroundWidth / foregroundHeight
            if fgAspect < bgAspect then (foregroundHeight * bgAspect, foregroundHeight)
            else (foregroundWidth, foregroundWidth / bgAspect)
      let backdrop : BackdropDraw :=
        match backgroundImg with
        | none => .whiteFill
        | some bg =>
            let scale := max (dims.1 / (bg.width : ℚ)) (dims.2 / (bg.height : ℚ))
            let scaledWidth := (bg.width : ℚ) * scale
            let scaledHeight := (bg.height : ℚ) * scale
            .imageDraw bg ((dims.1 - scaledWidth) / 2) ((dims.2 - scaledHeight) / 2)
              scaledWidth scaledHeight
      { canvas := some
          { width := dims.1
            height := dims.2
            backdrop := backdrop
            foregroundX := (dims.1 - foregroundWidth) / 2
            foregroundY := (dims.2 - foregroundHeight) / 2
            foregroundW := foregroundWidth
            foregroundH := foregroundHeight }
        success := true
        error := none }

/-- A 2×2 foreground with one transparent pixel (so the transparency scan
passes and no secondary removal runs). -/
def c9Foreground : Image :=
  { width := 2
    height := 2
    pix := fun x y => if x = 0 ∧ y = 0 then ⟨0, 0, 0, 0⟩ else ⟨10, 10, 10, 255⟩ }

/-- A 4×2 studio backdrop (aspect ratio 2). -/
def c9Backdrop : Image :=
  { width := 4
    height := 2
    pix := fun _ _ => ⟨100, 100, 100, 255⟩ }

/-- A compositing environment with the 2×2 foreground and the 4×2 studio
backdrop. -/
def c9Env : CompositingEnv :=
  { decode := fun _ => .ok c9Foreground
    loadBackgroundImage := fun _ => some c9Backdrop
    removeBackgroundAttempt := fun _ => none }

/-- Counterexample to **C9** as stated: with a 2×2 foreground and the 4×2
`studio` backdrop the compositor succeeds but its output canvas is 4×2 —
not the foreground's 2×2 dimensions: the canvas is widened to the
backdrop's aspect ratio. -/
theorem c9_counterexample_canvas_not_foreground_sized :
    (compositeImageWithBackground c9Env "fg.png" .studio).success = true ∧
    ((compositeImageWithBackground c9Env "fg.png" .studio).canvas.map
      CompositedCanvas.width) = some 4 ∧
    ((compositeImageWithBackground c9Env "fg.png" .studio).canvas.map
      CompositedCanvas.foregroundW) = some 2 ∧
    ((compositeImageWithBackground c9Env "fg.png" .studio).canvas.map
        CompositedCanvas.width) ≠
      ((compositeImageWithBackground c9Env "fg.png" .studio).canvas.map
        CompositedCanvas.foregroundW) := by
  refine ⟨rfl, ?_, ?_, ?_⟩ <;>
    (simp [compositeImageWithBackground, c9Env, c9Foreground, c9Backdrop,
      hasTransparency] <;> norm_num)

/-- **C9 (amended).** The flat-fill (`white`) backdrop yields a solid fill
at exactly the foreground's dimensions with the foreground drawn
centered (at the origin); a named backdrop that loads yields a canvas
expanded to the backdrop's aspect ratio — keeping the foreground's
height when the backdrop is proportionally wider, its width otherwise —
with the backdrop drawn cover-fit (scaled by the larger of the two
ratio factors, centered) and the foreground drawn centered; the output
equals the foreground's dimensions only when the two aspect ratios
coincide. -/
theorem c9_amended_compositor_geometry (env : CompositingEnv) (url : String)
    (fg : Image) (hdec : env.decode url = .ok fg) :
    (((compositeImageWithBackground env url .white).canvas.map fun c => c.backdrop) =
        some .whiteFill ∧
      ((compositeImageWithBackground env url .white).canvas.map fun c =>
          (c.width, c.height)) =
        ((compositeImageWithBackground env url .white).canvas.map fun c =>
          (c.foregroundW, c.foregroundH)) ∧
      ((compositeImageWithBackground env url .white).canvas.map fun c =>
          (c.foregroundX, c.foregroundY)) =
        some (0, 0))
    ∧ (∀ bt : BackgroundType, bt ≠ .white → ∀ bg,
        env.loadBackgroundImage bt = some bg →
        ((compositeImageWithBackground env url bt).canvas.map fun c =>
            (c.width, c.height)) =
          ((compositeImageWithBackground env url bt).canvas.map fun c =>
            if c.foregroundW / c.foregroundH < (bg.width : ℚ) / (bg.height : ℚ) then
              (c.foregroundH * ((bg.width : ℚ) / (bg.height : ℚ)), c.foregroundH)
            else (c.foregroundW, c.foregroundW / ((bg.width : ℚ) / (bg.height : ℚ)))) ∧
        ((compositeImageWithBackground env url bt).canvas.map fun c => c.backdrop) =
          ((compositeImageWithBackground env url bt).canvas.map fun c =>
            .imageDraw bg
              ((c.width - (bg.width : ℚ) *
                max (c.width / (bg.width : ℚ)) (c.height / (bg.height : ℚ))) / 2)
              ((c.height - (bg.height : ℚ) *
                max (c.width / (bg.width : ℚ)) (c.height / (bg.height : ℚ))) / 2)
              ((bg.width : ℚ) * max (c.width / (bg.width : ℚ)) (c.height / (bg.height : ℚ)))
              ((bg.height : ℚ) *
                max (c.width / (bg.width : ℚ)) (c.height / (bg.height : ℚ)))) ∧
        ((compositeImageWithBackground env url bt).canvas.map fun c =>
            (c.foregroundX, c.foregroundY)) =
          ((compositeImageWithBackground env url bt).canvas.map fun c =>
            ((c.width - c.foregroundW) / 2, (c.height - c.foregroundH) / 2))) := by
  constructor
  · refine ⟨?_, ?_, ?_⟩ <;> simp [compositeImageWithBackground, hdec]
  · intro bt hbt bg hbg
    refine ⟨?_, ?_, ?_⟩ <;> simp [compositeImageWithBackground, hdec, if_neg hbt, hbg]

/-- Witness for the amended C9: the flat-fill backdrop and the concrete
studio backdrop, each evaluated on the concrete environment. -/
theorem c9_amended_compositor_geometry_witness :
    ((compositeImageWithBackground c9Env "fg.png" .white).canvas.map fun c =>
        c.backdrop) = some .whiteFill ∧
    ((compositeImageWithBackground c9Env "fg.png" .studio).canvas.map fun c =>
        (c.width, c.height)) =
      ((compositeImageWithBackground c9Env "fg.png" .studio).canvas.map fun c =>
        if c.foregroundW / c.foregroundH <
            (c9Backdrop.width : ℚ) / (c9Backdrop.height : ℚ) then
          (c.foregroundH * ((c9Backdrop.width : ℚ) / (c9Backdrop.height : ℚ)),
            c.foregroundH)
        else
          (c.foregroundW,
            c.foregroundW / ((c9Backdrop.width : ℚ) / (c9Backdrop.height : ℚ)))) :=
  ⟨(c9_amended_compositor_geometry c9Env "fg.png" c9Foreground rfl).1.1,
    ((c9_amended_compositor_geometry c9Env "fg.png" c9Foreground rfl).2 .studio
      (by decide) c9Backdrop rfl).1⟩

end InspiredOutfitting
